import Mathlib

/-!
Shallow embedding of `src/server.py` (TeorMinimumEvalHandler), the range-request
HTTP file server.  Bodies and file contents are lists of byte values (`Nat`);
HTTP responses are a status code, an ordered header list and a body.  The
standard-library pieces (path resolution, socket I/O, the base
`SimpleHTTPRequestHandler`) are external collaborators: the filesystem is
abstracted as an `FsEntry` (absent / not-a-regular-file / regular file with
contents) and the base class's static serving as an opaque outcome.
-/

/-- An HTTP response as assembled by the handler: status code, the ordered
list of `send_header` calls (name, value), and the body bytes. -/
structure Response where
  status : Nat
  headers : List (String × String)
  body : List Nat
deriving Repr, DecidableEq

/-- The result of resolving `self.path` on the filesystem:
`os.path.exists` false, or exists but `os.path.isfile` false, or a regular
file with the given byte contents. -/
inductive FsEntry where
  | absent : FsEntry
  | notRegularFile : FsEntry
  | file (content : List Nat) : FsEntry
deriving Repr, DecidableEq

/-- The three CORS headers of `server.py` lines 70-72 and 82-84, in source
order. -/
def corsHeaders : List (String × String) :=
  [("Access-Control-Allow-Origin", "*"),
   ("Access-Control-Allow-Methods", "GET, POST, OPTIONS"),
   ("Access-Control-Allow-Headers", "Content-Type, Range")]

/-- The overridden `end_headers` (lines 80-85): before closing the header
block it appends the three CORS headers to whatever headers were already
sent. -/
def end_headers (sent : List (String × String)) : List (String × String) :=
  sent ++ corsHeaders

/-- Model of `self.send_error(code, message)`: an error response with the given
status.  The library-generated error page body and bookkeeping headers are
external; the overridden `end_headers` still runs, so the CORS headers are
present. -/
def send_error (code : Nat) (message : String) : Response :=
  { status := code, headers := end_headers [], body := [] }

/-! ### Python `int()` on strings

`server.py` lines 51-52 call `int(start_str)` / `int(end_str)`.  `pyInt`
models CPython's `int(str)` on ASCII strings: optional surrounding
whitespace, an optional `+`/`-` sign, then decimal digits in which a single
underscore may separate two digits.  `none` models the `ValueError` the
call raises otherwise. -/

/-- The ASCII whitespace characters `str.strip` / `int()` ignore. -/
def isPySpace (c : Char) : Bool :=
  c = ' ' || c = '\t' || c = '\n' || c = '\r' || c = '\x0b' || c = '\x0c'

/-- Digits after the first one: a `_` is only legal between two digits. -/
def pyDigitsAux : List Char → Nat → Option Nat
  | [], acc => some acc
  | '_' :: c :: rest, acc =>
      if c.isDigit then pyDigitsAux rest (acc * 10 + (c.toNat - 48)) else none
  | c :: rest, acc =>
      if c.isDigit then pyDigitsAux rest (acc * 10 + (c.toNat - 48)) else none

/-- A nonempty digit run (underscores allowed between digits). -/
def pyDigits : List Char → Option Nat
  | [] => none
  | c :: rest => if c.isDigit then pyDigitsAux rest (c.toNat - 48) else none

/-- Strip leading and trailing Python whitespace. -/
def pyStrip (cs : List Char) : List Char :=
  ((cs.dropWhile isPySpace).reverse.dropWhile isPySpace).reverse

/-- CPython `int(s)` on an ASCII string, given as its code-point list;
`none` models `ValueError`. -/
def pyInt (s : List Char) : Option Int :=
  match pyStrip s with
  | [] => none
  | c :: rest =>
      if c = '-' then (pyDigits rest).map fun m : Nat => -(m : Int)
      else if c = '+' then (pyDigits rest).map fun m : Nat => (m : Int)
      else (pyDigits (c :: rest)).map fun m : Nat => (m : Int)

/-- Python `s.split(sep, 1)` when `sep` occurs in `s`: the part before the
first occurrence and the part after it.  (When `sep` does not occur the
second component is `[]`; the handler only calls this after checking that
`'-'` occurs.) -/
def splitOnFirst (sep : Char) : List Char → List Char × List Char
  | [] => ([], [])
  | x :: xs =>
      if x = sep then ([], xs)
      else
        let p := splitOnFirst sep xs
        (x :: p.1, p.2)

/-- Lines 50-52: split the range specifier (the header value after
`bytes=`) on the first `-`, then `start = int(start_str) if start_str else 0`
and `end = int(end_str) if end_str else file_size - 1`.  `none` models the
`ValueError` escaping from `int()`. -/
def parseRangeSpec (spec : List Char) (file_size : Nat) : Option (Int × Int) :=
  let p := splitOnFirst '-' spec
  let start_str := p.1
  let end_str := p.2
  let st? : Option Int := if start_str.isEmpty then some 0 else pyInt start_str
  let en? : Option Int :=
    if end_str.isEmpty then some ((file_size : Int) - 1) else pyInt end_str
  match st?, en? with
  | some s, some e => some (s, e)
  | _, _ => none

/-- Lines 60-62: `f.seek(start)` then `f.read(end - start + 1)` — the bytes
of the file from offset `start`, at most `end - start + 1` of them. -/
def readRange (content : List Nat) (start en : Int) : List Nat :=
  (content.drop start.toNat).take (en - start + 1).toNat

/-- The `handle_range_request` method (lines 27-78).  Returns the response together
with a flag recording whether the file was opened and read (lines 60-62).
Control flow mirrors the source: prefix check, existence/regular-file
check, `getsize`, `-` check, parse (a `ValueError` reaches the
`except Exception` and becomes a 500), bounds validation, read, 206. -/
def handle_range_request (range_header : String) (entry : FsEntry) :
    Response × Bool :=
  if List.isPrefixOf "bytes=".data range_header.data then
    match entry with
    | .absent => (send_error 404 "File not found", false)
    | .notRegularFile => (send_error 404 "File not found", false)
    | .file content =>
      let file_size := content.length
      let range_spec := range_header.data.drop 6
      if range_spec.contains '-' then
        match parseRangeSpec range_spec file_size with
        | none =>
            (send_error 500 "Internal server error: invalid literal", false)
        | some (start, en) =>
          if start < 0 ∨ (file_size : Int) ≤ en ∨ en < start then
            (send_error 416 "Requested Range Not Satisfiable", false)
          else
            let data := readRange content start en
            ({ status := 206,
               headers :=
                 end_headers
                   ([("Content-Type", "application/octet-stream"),
                     ("Content-Length", toString data.length),
                     ("Content-Range",
                      "bytes " ++ toString start ++ "-" ++ toString en ++
                        "/" ++ toString file_size),
                     ("Accept-Ranges", "bytes")] ++ corsHeaders),
               body := data }, true)
      else (send_error 400 "Invalid Range header", false)
  else (send_error 400 "Invalid Range header", false)

/-- What `do_GET` does with a request: either the range path produced a
response (with its read flag), or the request was delegated to
`SimpleHTTPRequestHandler.do_GET` (ordinary full-file static serving). -/
inductive GetOutcome where
  | rangeResponse (resp : Response) (didRead : Bool) : GetOutcome
  | staticServe : GetOutcome
deriving Repr, DecidableEq

/-- The `do_GET` method (lines 18-25): `self.headers.get('Range')` yields `none` when
the header is absent; the Python truthiness test `if range_header:` treats
an empty string like an absent header. -/
def do_GET (range_header : Option String) (entry : FsEntry) : GetOutcome :=
  match range_header with
  | none => .staticServe
  | some h =>
      if h = "" then .staticServe
      else
        let p := handle_range_request h entry
        .rangeResponse p.1 p.2

/-- The `do_OPTIONS` method (lines 87-90): `send_response(200)` then the overridden
`end_headers`, which contributes the three CORS headers; no body is
written. -/
def do_OPTIONS : Response :=
  { status := 200, headers := end_headers [], body := [] }

/-! ### Helper lemmas about the parser -/

/-- The part of the string before the first `sep` contains no `sep`. -/
theorem splitOnFirst_fst_not_mem (sep : Char) (cs : List Char) :
    sep ∉ (splitOnFirst sep cs).1 := by
  induction cs with
  | nil => simp [splitOnFirst]
  | cons x xs ih =>
    by_cases hx : x = sep
    · simp [splitOnFirst, hx]
    · simp only [splitOnFirst, if_neg hx, List.mem_cons, not_or]
      exact ⟨fun h => hx h.symm, ih⟩

/-- Stripping whitespace only removes characters. -/
theorem mem_pyStrip {a : Char} {cs : List Char} (h : a ∈ pyStrip cs) :
    a ∈ cs := by
  unfold pyStrip at h
  rw [List.mem_reverse] at h
  have h2 : a ∈ (cs.dropWhile isPySpace).reverse :=
    (List.dropWhile_sublist _).subset h
  rw [List.mem_reverse] at h2
  exact (List.dropWhile_sublist _).subset h2

/-- Python `int()` on a string containing no `-` cannot return a negative
number. -/
theorem pyInt_nonneg {s : List Char} (hs : '-' ∉ s) {n : Int}
    (h : pyInt s = some n) : 0 ≤ n := by
  unfold pyInt at h
  split at h
  · exact absurd h (by simp)
  · next c rest hps =>
    by_cases hc : c = '-'
    · exfalso
      apply hs
      apply mem_pyStrip
      rw [hps, hc]
      exact List.mem_cons_self _ _
    · rw [if_neg hc] at h
      by_cases hc2 : c = '+'
      · rw [if_pos hc2] at h
        obtain ⟨m, -, hf⟩ := Option.map_eq_some'.mp h
        omega
      · rw [if_neg hc2] at h
        obtain ⟨m, -, hf⟩ := Option.map_eq_some'.mp h
        omega

/-- The parsed-and-defaulted `start` is never negative: `start_str` is the
part before the first `-`, so it has no sign, and an empty `start_str`
defaults to `0`. -/
theorem parseRangeSpec_fst_nonneg {spec : List Char} {L : Nat} {st en : Int}
    (h : parseRangeSpec spec L = some (st, en)) : 0 ≤ st := by
  simp only [parseRangeSpec] at h
  split at h
  · next s e hst hen =>
    obtain ⟨rfl, rfl⟩ := Option.some.inj h
    split at hst
    · exact (Option.some.inj hst) ▸ le_refl 0
    · exact pyInt_nonneg (splitOnFirst_fst_not_mem '-' spec) hst
  · exact absurd h (by simp)

/-! ### Branch characterizations of `handle_range_request` -/

/-- Line 32-34: a Range header not starting with `bytes=` is rejected 400
before anything else is examined. -/
theorem handle_bad_unit (header : String) (entry : FsEntry)
    (h : List.isPrefixOf "bytes=".data header.data = false) :
    handle_range_request header entry =
      (send_error 400 "Invalid Range header", false) := by
  simp [handle_range_request, h]

/-- Lines 37-40: with a `bytes=` header, a missing or non-regular-file
target is rejected 404. -/
theorem handle_404 (header : String) (entry : FsEntry)
    (hpre : List.isPrefixOf "bytes=".data header.data = true)
    (hent : entry = FsEntry.absent ∨ entry = FsEntry.notRegularFile) :
    handle_range_request header entry =
      (send_error 404 "File not found", false) := by
  rcases hent with rfl | rfl <;> simp [handle_range_request, hpre]

/-- Lines 46-48: a specifier without `-` is rejected 400. -/
theorem handle_no_dash (header : String) (content : List Nat)
    (hpre : List.isPrefixOf "bytes=".data header.data = true)
    (hdash : (header.data.drop 6).contains '-' = false) :
    handle_range_request header (FsEntry.file content) =
      (send_error 400 "Invalid Range header", false) := by
  simp only [handle_range_request, hpre, hdash, if_true]
  simp

/-- Lines 51-52 and 76-78: a `ValueError` from `int()` propagates to the
`except Exception` handler and becomes a 500. -/
theorem handle_parse_fail (header : String) (content : List Nat)
    (hpre : List.isPrefixOf "bytes=".data header.data = true)
    (hdash : (header.data.drop 6).contains '-' = true)
    (hparse : parseRangeSpec (header.data.drop 6) content.length = none) :
    handle_range_request header (FsEntry.file content) =
      (send_error 500 "Internal server error: invalid literal", false) := by
  simp only [handle_range_request, hpre, hdash, hparse, if_true]

/-- Lines 55-57: a parsed range failing validation is rejected 416 without
reading the file. -/
theorem handle_416 (header : String) (content : List Nat) (st en : Int)
    (hpre : List.isPrefixOf "bytes=".data header.data = true)
    (hdash : (header.data.drop 6).contains '-' = true)
    (hparse : parseRangeSpec (header.data.drop 6) content.length
      = some (st, en))
    (hbad : st < 0 ∨ (content.length : Int) ≤ en ∨ en < st) :
    handle_range_request header (FsEntry.file content) =
      (send_error 416 "Requested Range Not Satisfiable", false) := by
  simp only [handle_range_request, hpre, hdash, hparse, if_true]
  rw [if_pos hbad]

/-- Lines 59-74: a valid parsed range produces the 206 partial-content
response, with the header block listed in source order (the CORS trio
appears once from lines 70-72 and once more from the overridden
`end_headers`). -/
theorem handle_206 (header : String) (content : List Nat) (st en : Int)
    (hpre : List.isPrefixOf "bytes=".data header.data = true)
    (hdash : (header.data.drop 6).contains '-' = true)
    (hparse : parseRangeSpec (header.data.drop 6) content.length
      = some (st, en))
    (hok : ¬(st < 0 ∨ (content.length : Int) ≤ en ∨ en < st)) :
    handle_range_request header (FsEntry.file content) =
      ({ status := 206,
         headers :=
           [("Content-Type", "application/octet-stream"),
            ("Content-Length", toString (readRange content st en).length),
            ("Content-Range",
             "bytes " ++ toString st ++ "-" ++ toString en ++ "/" ++
               toString content.length),
            ("Accept-Ranges", "bytes")] ++ corsHeaders ++ corsHeaders,
         body := readRange content st en }, true) := by
  simp only [handle_range_request, hpre, hdash, hparse, if_true]
  rw [if_neg hok]
  simp [end_headers]

/-! ### The byte slice actually read -/

/-- For a validated range the read returns exactly `end - start + 1`
bytes. -/
theorem readRange_length (content : List Nat) (st en : Int)
    (h0 : 0 ≤ st) (hse : st ≤ en) (hen : en ≤ (content.length : Int) - 1) :
    (readRange content st en).length = (en - st + 1).toNat := by
  unfold readRange
  rw [List.length_take, List.length_drop]
  omega

/-- Each byte of the read slice is the corresponding byte of the file. -/
theorem readRange_getElem? (content : List Nat) (st en : Int) (i : Nat)
    (hi : i < (en - st + 1).toNat) :
    (readRange content st en)[i]? = content[st.toNat + i]? := by
  unfold readRange
  rw [List.getElem?_take_of_lt hi, List.getElem?_drop]

/-- Casting a natural number to `Int` does not change its `toString`. -/
theorem toString_intCast_nat (m : Nat) :
    toString ((m : Nat) : Int) = toString m := rfl

/-! ### Claim theorems -/

/-- C1: for every file and every parsed-and-defaulted range `(start, end)`
with `0 ≤ start ≤ end ≤ file_size - 1`, `handle_range_request` responds
with status 206, a body that is exactly the byte slice `[start, end]` of
the file (right length, byte-for-byte agreement), a `Content-Length`
header equal to `end - start + 1` and a `Content-Range` header equal to
`bytes <start>-<end>/<file_size>`. -/
theorem C1_valid_range_206 (header : String) (content : List Nat)
    (st en : Int)
    (hpre : List.isPrefixOf "bytes=".data header.data = true)
    (hdash : (header.data.drop 6).contains '-' = true)
    (hparse : parseRangeSpec (header.data.drop 6) content.length
      = some (st, en))
    (h0 : 0 ≤ st) (hse : st ≤ en) (hen : en ≤ (content.length : Int) - 1) :
    (handle_range_request header (FsEntry.file content)).1.status = 206 ∧
    (handle_range_request header (FsEntry.file content)).1.body.length
      = (en - st + 1).toNat ∧
    (∀ i : Nat, i < (en - st + 1).toNat →
      (handle_range_request header (FsEntry.file content)).1.body[i]?
        = content[st.toNat + i]?) ∧
    ("Content-Length", toString (en - st + 1).toNat)
      ∈ (handle_range_request header (FsEntry.file content)).1.headers ∧
    ("Content-Range", "bytes " ++ toString st ++ "-" ++ toString en ++ "/"
        ++ toString content.length)
      ∈ (handle_range_request header (FsEntry.file content)).1.headers := by
  have hok : ¬(st < 0 ∨ (content.length : Int) ≤ en ∨ en < st) := by omega
  rw [handle_206 header content st en hpre hdash hparse hok]
  have hlen := readRange_length content st en h0 hse hen
  refine ⟨rfl, hlen, ?_, ?_, ?_⟩
  · intro i hi
    exact readRange_getElem? content st en i hi
  · rw [hlen]
    simp
  · simp

/-- Witness for C1 at `Range: bytes=1-2` on the 4-byte file
`[10, 20, 30, 40]`. -/
theorem C1_witness :
    parseRangeSpec (("bytes=1-2" : String).data.drop 6)
        ([10, 20, 30, 40] : List Nat).length = some (1, 2) ∧
    (handle_range_request "bytes=1-2"
      (FsEntry.file [10, 20, 30, 40])).1.status = 206 ∧
    (handle_range_request "bytes=1-2"
        (FsEntry.file [10, 20, 30, 40])).1.body.length
      = ((2 : Int) - 1 + 1).toNat :=
  ⟨by decide,
   (C1_valid_range_206 "bytes=1-2" [10, 20, 30, 40] 1 2 (by decide)
     (by decide) (by decide) (by decide) (by decide) (by decide)).1,
   (C1_valid_range_206 "bytes=1-2" [10, 20, 30, 40] 1 2 (by decide)
     (by decide) (by decide) (by decide) (by decide) (by decide)).2.1⟩

/-- C3: when the parsed-and-defaulted range fails validation
(`start < 0`, `end ≥ file_size`, or `start > end`) the handler responds
416 and never opens or reads the file. -/
theorem C3_invalid_range_416 (header : String) (content : List Nat)
    (st en : Int)
    (hpre : List.isPrefixOf "bytes=".data header.data = true)
    (hdash : (header.data.drop 6).contains '-' = true)
    (hparse : parseRangeSpec (header.data.drop 6) content.length
      = some (st, en))
    (hbad : st < 0 ∨ (content.length : Int) ≤ en ∨ st > en) :
    (handle_range_request header (FsEntry.file content)).1.status = 416 ∧
    (handle_range_request header (FsEntry.file content)).2 = false := by
  have hbad' : st < 0 ∨ (content.length : Int) ≤ en ∨ en < st := by
    rcases hbad with h | h | h
    exacts [Or.inl h, Or.inr (Or.inl h), Or.inr (Or.inr h)]
  rw [handle_416 header content st en hpre hdash hparse hbad']
  exact ⟨rfl, rfl⟩

/-- Witness for C3 at `Range: bytes=5-100` on a 3-byte file. -/
theorem C3_witness :
    parseRangeSpec (("bytes=5-100" : String).data.drop 6)
        ([0, 0, 0] : List Nat).length = some (5, 100) ∧
    (handle_range_request "bytes=5-100"
      (FsEntry.file [0, 0, 0])).1.status = 416 ∧
    (handle_range_request "bytes=5-100" (FsEntry.file [0, 0, 0])).2
      = false :=
  ⟨by decide,
   (C3_invalid_range_416 "bytes=5-100" [0, 0, 0] 5 100 (by decide)
     (by decide) (by decide) (Or.inr (Or.inl (by decide)))).1,
   (C3_invalid_range_416 "bytes=5-100" [0, 0, 0] 5 100 (by decide)
     (by decide) (by decide) (Or.inr (Or.inl (by decide)))).2⟩

/-- C5 counterexample: on the empty file (size 0), `Range: bytes=0-`
defaults `end` to `-1`, so `start > end` and the handler responds 416 —
not a 206 with the (empty) full file. -/
theorem C5_counterexample :
    (handle_range_request "bytes=0-" (FsEntry.file [])).1.status = 416 ∧
    ¬ (handle_range_request "bytes=0-" (FsEntry.file [])).1.status
        = 206 := by
  decide

/-- C5 (amended: nonempty files): for a file of size `N ≥ 1`,
`Range: bytes=0-` returns the entire file as a 206 whose `Content-Range`
is `bytes 0-<N-1>/<N>`. -/
theorem C5_full_file_206 (content : List Nat) (hne : content ≠ []) :
    (handle_range_request "bytes=0-" (FsEntry.file content)).1.status
      = 206 ∧
    (handle_range_request "bytes=0-" (FsEntry.file content)).1.body
      = content ∧
    ("Content-Range", "bytes 0-" ++ toString (content.length - 1) ++ "/"
        ++ toString content.length)
      ∈ (handle_range_request "bytes=0-" (FsEntry.file content)).1.headers
      := by
  have hL : 1 ≤ content.length := by
    cases content with
    | nil => exact absurd rfl hne
    | cons a l => simp
  have hparse : parseRangeSpec (("bytes=0-" : String).data.drop 6)
      content.length = some (0, (content.length : Int) - 1) := rfl
  have hok : ¬((0 : Int) < 0 ∨
      (content.length : Int) ≤ (content.length : Int) - 1 ∨
      (content.length : Int) - 1 < 0) := by omega
  rw [handle_206 "bytes=0-" content 0 ((content.length : Int) - 1)
    (by decide) (by decide) hparse hok]
  have hbody : readRange content 0 ((content.length : Int) - 1) = content := by
    unfold readRange
    have h1 : ((0 : Int)).toNat = 0 := rfl
    have h2 : ((content.length : Int) - 1 - 0 + 1).toNat = content.length := by
      omega
    rw [h1, h2, List.drop_zero, List.take_length]
  refine ⟨rfl, hbody, ?_⟩
  have hcast : (content.length : Int) - 1 = ((content.length - 1 : Nat) : Int) := by
    omega
  have hstr : "bytes " ++ toString (0 : Int) ++ "-"
      ++ toString ((content.length : Int) - 1) ++ "/"
      ++ toString content.length
      = "bytes 0-" ++ toString (content.length - 1) ++ "/"
      ++ toString content.length := by
    rw [hcast, toString_intCast_nat]
    rfl
  rw [← hstr]
  simp

/-- Witness for the amended C5 on the 2-byte file `[7, 8]`. -/
theorem C5_witness :
    ([7, 8] : List Nat) ≠ [] ∧
    (handle_range_request "bytes=0-" (FsEntry.file [7, 8])).1.status
      = 206 ∧
    (handle_range_request "bytes=0-" (FsEntry.file [7, 8])).1.body
      = [7, 8] :=
  ⟨by decide,
   (C5_full_file_206 [7, 8] (by decide)).1,
   (C5_full_file_206 [7, 8] (by decide)).2.1⟩

/-- C6: `bytes=-<k>` is parsed with `start = 0`, `end = k` — not as an
RFC-7233 suffix range.  For `Range: bytes=-500` on a file with more than
500 bytes the handler returns the 501-byte slice `[0, 500]`, which is not
the last-500-bytes slice. -/
theorem C6_empty_start_not_suffix (content : List Nat)
    (h : 500 < content.length) :
    (handle_range_request "bytes=-500" (FsEntry.file content)).1.status
      = 206 ∧
    (handle_range_request "bytes=-500" (FsEntry.file content)).1.body
      = content.take 501 ∧
    (handle_range_request "bytes=-500" (FsEntry.file content)).1.body.length
      = 501 ∧
    (handle_range_request "bytes=-500" (FsEntry.file content)).1.body
      ≠ content.drop (content.length - 500) := by
  have hparse : parseRangeSpec (("bytes=-500" : String).data.drop 6)
      content.length = some (0, 500) := rfl
  have hok : ¬((0 : Int) < 0 ∨ (content.length : Int) ≤ 500 ∨
      (500 : Int) < 0) := by omega
  rw [handle_206 "bytes=-500" content 0 500 (by decide) (by decide)
    hparse hok]
  have hbody : readRange content 0 500 = content.take 501 := by
    unfold readRange
    have e0 : ((0 : Int)).toNat = 0 := rfl
    have e1 : ((500 : Int) - 0 + 1).toNat = 501 := by decide
    rw [e0, e1, List.drop_zero]
  have hlen : (content.take 501).length = 501 := by
    rw [List.length_take]
    omega
  refine ⟨rfl, hbody, by rw [hbody, hlen], ?_⟩
  rw [hbody]
  intro heq
  have := congrArg List.length heq
  rw [hlen, List.length_drop] at this
  omega

/-- Witness for C6 on a 501-byte file. -/
theorem C6_witness :
    500 < (List.replicate 501 (3 : Nat)).length ∧
    (handle_range_request "bytes=-500"
      (FsEntry.file (List.replicate 501 3))).1.status = 206 ∧
    (handle_range_request "bytes=-500"
        (FsEntry.file (List.replicate 501 3))).1.body
      = (List.replicate 501 (3 : Nat)).take 501 :=
  ⟨by rw [List.length_replicate]; omega,
   (C6_empty_start_not_suffix (List.replicate 501 3)
     (by rw [List.length_replicate]; omega)).1,
   (C6_empty_start_not_suffix (List.replicate 501 3)
     (by rw [List.length_replicate]; omega)).2.1⟩

/-- C2 counterexample: `Range: bytes=abc-10` on an existing 3-byte file
has a non-integer start substring; `int('abc')` raises, the broad
`except Exception` catches it, and the handler responds 500 — not the 400
the claim requires (and exactly the 500 it forbids). -/
theorem C2_counterexample :
    (handle_range_request "bytes=abc-10" (FsEntry.file [1, 2, 3])).1.status
      = 500 ∧
    ¬ (handle_range_request "bytes=abc-10"
        (FsEntry.file [1, 2, 3])).1.status = 400 := by
  decide

/-- C2 (amended): for a `bytes=`-prefixed header on an existing regular
file, a specifier lacking `-` is rejected 400, but a start or end
substring on which `int()` fails makes the handler respond 500 (the
`ValueError` is caught by the top-level `except Exception`), not 400. -/
theorem C2_malformed_spec (header : String) (content : List Nat)
    (hpre : List.isPrefixOf "bytes=".data header.data = true) :
    ((header.data.drop 6).contains '-' = false →
      (handle_range_request header (FsEntry.file content)).1.status
        = 400) ∧
    ((header.data.drop 6).contains '-' = true →
      parseRangeSpec (header.data.drop 6) content.length = none →
      (handle_range_request header (FsEntry.file content)).1.status
        = 500) := by
  constructor
  · intro hdash
    rw [handle_no_dash header content hpre hdash]
    rfl
  · intro hdash hparse
    rw [handle_parse_fail header content hpre hdash hparse]
    rfl

/-- Witness for the amended C2 at `Range: bytes=abc-10` on a 3-byte
file. -/
theorem C2_witness :
    List.isPrefixOf "bytes=".data ("bytes=abc-10" : String).data = true ∧
    (((("bytes=abc-10" : String).data.drop 6).contains '-' = false →
      (handle_range_request "bytes=abc-10"
        (FsEntry.file [1, 2, 3])).1.status = 400) ∧
    ((("bytes=abc-10" : String).data.drop 6).contains '-' = true →
      parseRangeSpec (("bytes=abc-10" : String).data.drop 6)
        ([1, 2, 3] : List Nat).length = none →
      (handle_range_request "bytes=abc-10"
        (FsEntry.file [1, 2, 3])).1.status = 500)) :=
  ⟨by decide, C2_malformed_spec "bytes=abc-10" [1, 2, 3] (by decide)⟩

/-- C4 counterexample: a Range header not starting with `bytes=` on a
nonexistent path is rejected 400 by the prefix check of line 32, which
runs before the existence check of line 38 — not the 404 the claim
requires for every Range header. -/
theorem C4_counterexample :
    (handle_range_request "items=0-10" FsEntry.absent).1.status = 400 ∧
    ¬ (handle_range_request "items=0-10" FsEntry.absent).1.status
        = 404 := by
  decide

/-- C4 (amended): for every Range header that begins with `bytes=`, a
missing or non-regular-file target is answered 404, regardless of the
rest of the specifier's syntax or of the range it denotes (and without
reading any file). -/
theorem C4_missing_file_404 (header : String) (entry : FsEntry)
    (hpre : List.isPrefixOf "bytes=".data header.data = true)
    (hent : entry = FsEntry.absent ∨ entry = FsEntry.notRegularFile) :
    (handle_range_request header entry).1.status = 404 ∧
    (handle_range_request header entry).2 = false := by
  rw [handle_404 header entry hpre hent]
  exact ⟨rfl, rfl⟩

/-- Witness for the amended C4: a malformed-after-the-prefix, out-of-range
specifier on a missing file still gets 404. -/
theorem C4_witness :
    List.isPrefixOf "bytes=".data ("bytes=zz-99" : String).data = true ∧
    (handle_range_request "bytes=zz-99" FsEntry.absent).1.status = 404 ∧
    (handle_range_request "bytes=zz-99" FsEntry.absent).2 = false :=
  ⟨by decide,
   (C4_missing_file_404 "bytes=zz-99" FsEntry.absent (by decide)
     (Or.inl rfl)).1,
   (C4_missing_file_404 "bytes=zz-99" FsEntry.absent (by decide)
     (Or.inl rfl)).2⟩

/-- C7: `do_OPTIONS` responds 200 with an empty body, and the headers it
sends are exactly the three CORS headers (contributed by the overridden
`end_headers`), nothing else. -/
theorem C7_options_preflight :
    do_OPTIONS.status = 200 ∧ do_OPTIONS.body = [] ∧
    do_OPTIONS.headers =
      [("Access-Control-Allow-Origin", "*"),
       ("Access-Control-Allow-Methods", "GET, POST, OPTIONS"),
       ("Access-Control-Allow-Headers", "Content-Type, Range")] :=
  ⟨rfl, rfl, rfl⟩

/-- C10: an empty `Range` header is falsy in Python, so `do_GET` treats it
exactly like an absent header: the request falls through to ordinary
static serving and is not answered by the range handler (hence not
rejected with 400). -/
theorem C10_empty_range_header_static (entry : FsEntry) :
    do_GET (some "") entry = GetOutcome.staticServe ∧
    do_GET none entry = GetOutcome.staticServe :=
  ⟨rfl, rfl⟩

/-- Inversion: a 206 response can only come from the success branch, so
the target was a regular file, the header well-formed, and the parsed
range valid. -/
theorem handle_206_inv (header : String) (entry : FsEntry)
    (h : (handle_range_request header entry).1.status = 206) :
    ∃ content st en, entry = FsEntry.file content ∧
      List.isPrefixOf "bytes=".data header.data = true ∧
      (header.data.drop 6).contains '-' = true ∧
      parseRangeSpec (header.data.drop 6) content.length = some (st, en) ∧
      ¬(st < 0 ∨ (content.length : Int) ≤ en ∨ en < st) := by
  by_cases hpre : List.isPrefixOf "bytes=".data header.data = true
  · cases entry with
    | absent =>
      rw [handle_404 header _ hpre (Or.inl rfl)] at h
      exact absurd h (by decide)
    | notRegularFile =>
      rw [handle_404 header _ hpre (Or.inr rfl)] at h
      exact absurd h (by decide)
    | file content =>
      by_cases hdash : (header.data.drop 6).contains '-' = true
      · cases hp : parseRangeSpec (header.data.drop 6) content.length with
        | none =>
          rw [handle_parse_fail header content hpre hdash hp] at h
          exact absurd h (by decide)
        | some p =>
          obtain ⟨st, en⟩ := p
          by_cases hok : st < 0 ∨ (content.length : Int) ≤ en ∨ en < st
          · rw [handle_416 header content st en hpre hdash hp hok] at h
            exact absurd h (by decide)
          · exact ⟨content, st, en, rfl, hpre, hdash, hp, hok⟩
      · rw [handle_no_dash header content hpre (Bool.eq_false_iff.mpr hdash)] at h
        exact absurd h (by decide)
  · rw [handle_bad_unit header entry (Bool.eq_false_iff.mpr hpre)] at h
    exact absurd h (by decide)

/-- C8: every 206 partial-content response carries each of the three CORS
header names twice — once sent explicitly by `handle_range_request`
(lines 70-72) and once more by the overridden `end_headers`
(lines 82-84). -/
theorem C8_duplicate_cors (header : String) (entry : FsEntry)
    (h206 : (handle_range_request header entry).1.status = 206) :
    (((handle_range_request header entry).1.headers.map
        Prod.fst).count "Access-Control-Allow-Origin" = 2) ∧
    (((handle_range_request header entry).1.headers.map
        Prod.fst).count "Access-Control-Allow-Methods" = 2) ∧
    (((handle_range_request header entry).1.headers.map
        Prod.fst).count "Access-Control-Allow-Headers" = 2) := by
  obtain ⟨content, st, en, rfl, hpre, hdash, hp, hok⟩ :=
    handle_206_inv header entry h206
  rw [handle_206 header content st en hpre hdash hp hok]
  refine ⟨?_, ?_, ?_⟩ <;>
    · dsimp only
      simp only [corsHeaders, List.map_append, List.map_cons, List.map_nil]
      decide

/-- Witness for C8 at `Range: bytes=0-1` on the 3-byte file `[5, 6, 7]`. -/
theorem C8_witness :
    (handle_range_request "bytes=0-1" (FsEntry.file [5, 6, 7])).1.status
      = 206 ∧
    (((handle_range_request "bytes=0-1"
        (FsEntry.file [5, 6, 7])).1.headers.map
          Prod.fst).count "Access-Control-Allow-Origin" = 2) ∧
    (((handle_range_request "bytes=0-1"
        (FsEntry.file [5, 6, 7])).1.headers.map
          Prod.fst).count "Access-Control-Allow-Methods" = 2) ∧
    (((handle_range_request "bytes=0-1"
        (FsEntry.file [5, 6, 7])).1.headers.map
          Prod.fst).count "Access-Control-Allow-Headers" = 2) :=
  ⟨by decide,
   C8_duplicate_cors "bytes=0-1" (FsEntry.file [5, 6, 7]) (by decide)⟩

/-- C9: the `start < 0` arm of the validation is unreachable — `start_str`
is taken from before the first `-` so it cannot carry a sign, and an empty
`start_str` defaults to `0`; hence every 416 response comes from a parsed
range with `start ≥ 0` whose `end` exceeds the file or precedes
`start`. -/
theorem C9_start_nonneg_416 (header : String) (entry : FsEntry)
    (h416 : (handle_range_request header entry).1.status = 416) :
    ∃ content st en, entry = FsEntry.file content ∧
      parseRangeSpec (header.data.drop 6) content.length = some (st, en) ∧
      0 ≤ st ∧ ((content.length : Int) ≤ en ∨ st > en) := by
  by_cases hpre : List.isPrefixOf "bytes=".data header.data = true
  · cases entry with
    | absent =>
      rw [handle_404 header _ hpre (Or.inl rfl)] at h416
      exact absurd h416 (by decide)
    | notRegularFile =>
      rw [handle_404 header _ hpre (Or.inr rfl)] at h416
      exact absurd h416 (by decide)
    | file content =>
      by_cases hdash : (header.data.drop 6).contains '-' = true
      · cases hp : parseRangeSpec (header.data.drop 6) content.length with
        | none =>
          rw [handle_parse_fail header content hpre hdash hp] at h416
          exact absurd h416 (by decide)
        | some p =>
          obtain ⟨st, en⟩ := p
          have h0 : 0 ≤ st := parseRangeSpec_fst_nonneg hp
          by_cases hok : st < 0 ∨ (content.length : Int) ≤ en ∨ en < st
          · refine ⟨content, st, en, rfl, hp, h0, ?_⟩
            rcases hok with hbad | hbad | hbad
            · omega
            · exact Or.inl hbad
            · exact Or.inr hbad
          · rw [handle_206 header content st en hpre hdash hp hok] at h416
            simp at h416
      · rw [handle_no_dash header content hpre (Bool.eq_false_iff.mpr hdash)]
          at h416
        exact absurd h416 (by decide)
  · rw [handle_bad_unit header entry (Bool.eq_false_iff.mpr hpre)] at h416
    exact absurd h416 (by decide)

/-- Witness for C9 at `Range: bytes=5-100` on a 3-byte file. -/
theorem C9_witness :
    (handle_range_request "bytes=5-100"
      (FsEntry.file [0, 0, 0])).1.status = 416 ∧
    (∃ content st en,
      FsEntry.file ([0, 0, 0] : List Nat) = FsEntry.file content ∧
      parseRangeSpec (("bytes=5-100" : String).data.drop 6) content.length
        = some (st, en) ∧
      0 ≤ st ∧ ((content.length : Int) ≤ en ∨ st > en)) :=
  ⟨by decide,
   C9_start_nonneg_416 "bytes=5-100" (FsEntry.file [0, 0, 0])
     (by decide)⟩
